import Mathlib

/- Shallow embedding of `src/app/lib/data.ts`, the read-only data-access
layer of a financial dashboard.  The rows held by the backing stores are
modelled as lists of records; a store-reported failure is injected through
an `Option StoreErr` parameter (client B returns it as an `error` field,
client A throws it); a thrown JavaScript exception is `Except.error`. -/

/-- A store-reported error (the `error` object of the structured client, or
the exception thrown by the `sql` client). -/
structure StoreErr where
  message : String
deriving DecidableEq

deriving instance DecidableEq for Except

/-- A JavaScript `try { inner } catch (error) { throw new Error(msg) }`
block: any failure of the inner computation is replaced by the fixed
message (the caught error itself is only logged). -/
def tryCatch {α : Type} (inner : Except String α) (msg : String) : Except String α :=
  match inner with
  | Except.error _ => Except.error msg
  | Except.ok a => Except.ok a

/-- A monetary value as it crosses the layer boundary: either a raw
JavaScript number or a formatted currency string. -/
inductive CurrencyVal where
  | num (q : ℚ)
  | str (s : String)
deriving DecidableEq

/-- Whether a boundary monetary value is a (formatted) string. -/
def CurrencyVal.isStr : CurrencyVal → Bool
  | CurrencyVal.num _ => false
  | CurrencyVal.str _ => true

/-- Modelled from the spec: `formatCurrency` lives in `app/lib/utils.ts`,
which is not among the sources; the spec describes it as a pure,
deterministic function from a numeric amount to a localized currency
string.  Nothing below depends on the concrete spelling of the string. -/
def formatCurrency (amount : Int) : String :=
  "$currency:" ++ toString amount

/-- A row of the `customers` table. -/
structure Customer where
  id : String
  name : String
  email : String
  image_url : String
deriving DecidableEq

/-- A row of the `invoices` table; `amount` is an integer number of minor
currency units (cents), `date` a textual ISO date, `status` one of
`"pending"` and `"paid"`. -/
structure Invoice where
  id : String
  customer_id : String
  amount : Int
  date : String
  status : String
deriving DecidableEq

/-- A row of the `revenue` table. -/
structure Revenue where
  month : String
  revenue : Int
deriving DecidableEq

/-- The relational content both stores serve. -/
structure DB where
  customers : List Customer
  invoices : List Invoice
  revenue : List Revenue
deriving DecidableEq

/-- `charsStartWith needle hay`: `needle` is a prefix of `hay`. -/
def charsStartWith : List Char → List Char → Bool
  | [], _ => true
  | _ :: _, [] => false
  | a :: as, b :: bs => a == b && charsStartWith as bs

/-- `charsContain hay needle`: `needle` occurs contiguously inside `hay`. -/
def charsContain (hay needle : List Char) : Bool :=
  match hay with
  | [] => needle.isEmpty
  | c :: rest => charsStartWith needle (c :: rest) || charsContain rest needle

/-- Postgres `column ILIKE '%query%'`: case-insensitive substring match. -/
def ilike (s query : String) : Bool :=
  charsContain (s.data.map Char.toLower) (query.data.map Char.toLower)

/-- `fetchRevenue`: `SELECT *` from `revenue`; a store-reported error is
logged and rethrown inside the `try`, and the `catch` replaces it with the
fixed message. -/
def fetchRevenue (db : DB) (error : Option StoreErr) : Except String (List Revenue) :=
  tryCatch
    (match error with
      | some e => Except.error e.message
      | none => Except.ok db.revenue)
    "Failed to fetch revenue data."

/-- The three display columns selected from the joined `customers`
relation of the latest-invoices query. -/
structure CustomerInfo where
  name : String
  image_url : String
  email : String
deriving DecidableEq

/-- The shape in which the structured client returns a to-one joined
relation: a single related object (possibly null) or a collection. -/
inductive CustomersField where
  | obj (c : Option CustomerInfo)
  | arr (cs : List CustomerInfo)
deriving DecidableEq

/-- A raw row of the latest-invoices query as returned by the store. -/
structure LatestInvoiceRaw where
  amount : Int
  id : String
  date : String
  customer_id : String
  customers : CustomersField
deriving DecidableEq

/-- An output record of `fetchLatestInvoices`.  The object spread
`{ ...invoice, ... }` keeps every field of the raw row — including the raw
`customers` relation — before the overridden and added fields. -/
structure LatestInvoice where
  amount : CurrencyVal
  id : String
  date : String
  customer_id : String
  customers : CustomersField
  name : Option String
  image_url : Option String
  email : Option String
deriving DecidableEq

/-- `Array.isArray(invoice.customers) ? invoice.customers[0] : invoice.customers`. -/
def pickCustomer : CustomersField → Option CustomerInfo
  | CustomersField.obj c => c
  | CustomersField.arr cs => cs.head?

/-- The body of the `data.map` callback of `fetchLatestInvoices`:
`{ ...invoice, amount: formatCurrency(invoice.amount), name: customer?.name,
image_url: customer?.image_url, email: customer?.email }`. -/
def flattenLatestInvoice (invoice : LatestInvoiceRaw) : LatestInvoice :=
  let customer := pickCustomer invoice.customers
  { amount := CurrencyVal.str (formatCurrency invoice.amount)
    id := invoice.id
    date := invoice.date
    customer_id := invoice.customer_id
    customers := invoice.customers
    name := customer.map CustomerInfo.name
    image_url := customer.map CustomerInfo.image_url
    email := customer.map CustomerInfo.email }

/-- `fetchLatestInvoices`: the store executes the query (ordering, limit
and the shape of the joined relation are its concern) and returns `data`
rows or an `error`; a reported error is thrown raw inside the `try` and
the `catch` replaces it with the fixed message. -/
def fetchLatestInvoices (data : List LatestInvoiceRaw) (error : Option StoreErr) :
    Except String (List LatestInvoice) :=
  tryCatch
    (match error with
      | some e => Except.error e.message
      | none => Except.ok (data.map flattenLatestInvoice))
    "Failed to fetch the latest invoices."

/-- The record returned by `fetchCardData`. -/
structure CardData where
  numberOfCustomers : Nat
  numberOfInvoices : Nat
  totalPaidInvoices : CurrencyVal
  totalPendingInvoices : CurrencyVal
deriving DecidableEq

/-- `fetchCardData`: three sub-queries, each with independent error
handling.  A failed count leaves its `count` null, so `Number(count ?? '0')`
yields 0; a failed status fetch leaves `paidTotal`/`pendingTotal` at their
initial 0.  No store-reported error reaches the `catch`. -/
def fetchCardData (db : DB)
    (invoiceError customerError invoiceStatusError : Option StoreErr) :
    Except String CardData :=
  tryCatch
    (let invoiceCount : Option Nat :=
      match invoiceError with
      | some _ => none
      | none => some db.invoices.length
    let customerCount : Option Nat :=
      match customerError with
      | some _ => none
      | none => some db.customers.length
    let statusRows := db.invoices.filter fun i => i.status == "paid" || i.status == "pending"
    let paidTotal : Int :=
      match invoiceStatusError with
      | some _ => 0
      | none => ((statusRows.filter fun i => i.status == "paid").map Invoice.amount).sum
    let pendingTotal : Int :=
      match invoiceStatusError with
      | some _ => 0
      | none => ((statusRows.filter fun i => i.status == "pending").map Invoice.amount).sum
    Except.ok
      { numberOfCustomers := customerCount.getD 0
        numberOfInvoices := invoiceCount.getD 0
        totalPaidInvoices := CurrencyVal.str (formatCurrency paidTotal)
        totalPendingInvoices := CurrencyVal.str (formatCurrency pendingTotal) })
    "Failed to fetch card data."

/-- `FROM invoices JOIN customers ON invoices.customer_id = customers.id`. -/
def joinedInvoiceRows (db : DB) : List (Invoice × Customer) :=
  db.invoices.flatMap fun inv =>
    (db.customers.filter fun c => c.id == inv.customer_id).map fun c => (inv, c)

/-- The WHERE clause of `fetchFilteredInvoices`. -/
def filteredInvoicesWhere (query : String) (row : Invoice × Customer) : Bool :=
  ilike row.2.name query || ilike row.2.email query ||
    ilike (toString row.1.amount) query || ilike row.1.date query ||
    ilike row.1.status query

/-- `ORDER BY invoices.date DESC`, the text order modelled as the
lexicographic order on the characters (which on ISO dates is the
chronological order). -/
abbrev dateDesc (a b : Invoice × Customer) : Prop :=
  b.1.date.data ≤ a.1.date.data

/-- `ORDER BY customers.name ASC`, the text order modelled as the
lexicographic order on the characters. -/
abbrev nameAsc (a b : Customer) : Prop :=
  a.name.data ≤ b.name.data

/-- An output row of `fetchFilteredInvoices` (`InvoicesTable`): the selected
columns, the amount passed through as the raw stored number. -/
structure InvoicesTableRow where
  id : String
  amount : CurrencyVal
  date : String
  status : String
  name : String
  email : String
  image_url : String
deriving DecidableEq

/-- The SELECT projection of `fetchFilteredInvoices`. -/
def toInvoicesTableRow (row : Invoice × Customer) : InvoicesTableRow :=
  { id := row.1.id
    amount := CurrencyVal.num (row.1.amount : ℚ)
    date := row.1.date
    status := row.1.status
    name := row.2.name
    email := row.2.email
    image_url := row.2.image_url }

def ITEMS_PER_PAGE : Nat := 6

/-- The full ordered match set of `fetchFilteredInvoices`: joined rows
satisfying the WHERE clause, ordered by date descending, projected. -/
def filteredInvoicesAll (db : DB) (query : String) : List InvoicesTableRow :=
  (List.insertionSort dateDesc
      ((joinedInvoiceRows db).filter (filteredInvoicesWhere query))).map
    toInvoicesTableRow

/-- `fetchFilteredInvoices`: the page slice
`LIMIT ITEMS_PER_PAGE OFFSET (currentPage - 1) * ITEMS_PER_PAGE`. -/
def fetchFilteredInvoices (db : DB) (query : String) (currentPage : Nat)
    (error : Option StoreErr) : Except String (List InvoicesTableRow) :=
  let offset := (currentPage - 1) * ITEMS_PER_PAGE
  tryCatch
    (match error with
      | some e => Except.error e.message
      | none => Except.ok (((filteredInvoicesAll db query).drop offset).take ITEMS_PER_PAGE))
    "Failed to fetch invoices."

/-- The WHERE clause of the COUNT query of `fetchInvoicesPages`,
transcribed separately from its own SQL text. -/
def invoicesPagesWhere (query : String) (row : Invoice × Customer) : Bool :=
  ilike row.2.name query || ilike row.2.email query ||
    ilike (toString row.1.amount) query || ilike row.1.date query ||
    ilike row.1.status query

/-- `SELECT COUNT(*)` of the joined rows matching the filter. -/
def invoicesPagesCount (db : DB) (query : String) : Nat :=
  ((joinedInvoiceRows db).filter (invoicesPagesWhere query)).length

/-- `Math.ceil(n / k)` on natural numbers. -/
def mathCeil (n k : Nat) : Nat :=
  (n + k - 1) / k

/-- `fetchInvoicesPages`: `Math.ceil(count / ITEMS_PER_PAGE)`. -/
def fetchInvoicesPages (db : DB) (query : String) (error : Option StoreErr) :
    Except String Nat :=
  tryCatch
    (match error with
      | some e => Except.error e.message
      | none => Except.ok (mathCeil (invoicesPagesCount db query) ITEMS_PER_PAGE))
    "Failed to fetch total number of invoices."

/-- An output record of `fetchInvoiceById` (`InvoiceForm` shape): the
spread keeps id, customer_id and status, and overrides `amount` with
`invoice.amount / 100` — a raw number, not a formatted string. -/
structure InvoiceForm where
  id : String
  customer_id : String
  amount : CurrencyVal
  status : String
deriving DecidableEq

/-- `fetchInvoiceById`: `WHERE invoices.id = id`, then
`amount: invoice.amount / 100` on each row, then `invoice[0]` (which is
`undefined`, i.e. `none`, when no row matched). -/
def fetchInvoiceById (db : DB) (id : String) (error : Option StoreErr) :
    Except String (Option InvoiceForm) :=
  tryCatch
    (match error with
      | some e => Except.error e.message
      | none =>
        let rows := db.invoices.filter fun i => i.id == id
        let invoice := rows.map fun i =>
          ({ id := i.id
             customer_id := i.customer_id
             amount := CurrencyVal.num ((i.amount : ℚ) / 100)
             status := i.status } : InvoiceForm)
        Except.ok invoice.head?)
    "Failed to fetch invoice."

/-- An output row of `fetchCustomers` (`CustomerField`). -/
structure CustomerField where
  id : String
  name : String
deriving DecidableEq

/-- `fetchCustomers`: `SELECT id, name FROM customers ORDER BY name ASC`. -/
def fetchCustomers (db : DB) (error : Option StoreErr) :
    Except String (List CustomerField) :=
  tryCatch
    (match error with
      | some e => Except.error e.message
      | none =>
        Except.ok ((List.insertionSort nameAsc db.customers).map fun c =>
          { id := c.id, name := c.name }))
    "Failed to fetch all customers."

/-- The WHERE clause of `fetchFilteredCustomers`. -/
def customersWhere (query : String) (c : Customer) : Bool :=
  ilike c.name query || ilike c.email query

/-- The invoices of the group keyed by customer `c` under
`LEFT JOIN invoices ON customers.id = invoices.customer_id` with
`GROUP BY` customer identity. -/
def customerInvoices (db : DB) (c : Customer) : List Invoice :=
  db.invoices.filter fun i => i.customer_id == c.id

/-- An output row of `fetchFilteredCustomers` (`CustomersTableType` with
the two sums formatted by the `data.rows.map` step). -/
structure CustomersTableRow where
  id : String
  name : String
  email : String
  image_url : String
  total_invoices : Nat
  total_pending : CurrencyVal
  total_paid : CurrencyVal
deriving DecidableEq

/-- The aggregation for one group: `COUNT(invoices.id)`,
`SUM(CASE WHEN invoices.status = 'pending' THEN invoices.amount ELSE 0 END)`,
`SUM(CASE WHEN invoices.status = 'paid' THEN invoices.amount ELSE 0 END)`,
followed by the `formatCurrency` mapping applied to both sums.  A customer
with no invoices has the empty group (the single padding row of the left
join counts 0 and sums 0). -/
def customerSummary (db : DB) (c : Customer) : CustomersTableRow :=
  { id := c.id
    name := c.name
    email := c.email
    image_url := c.image_url
    total_invoices := (customerInvoices db c).length
    total_pending := CurrencyVal.str (formatCurrency
      (((customerInvoices db c).map fun i =>
        if i.status == "pending" then i.amount else 0).sum))
    total_paid := CurrencyVal.str (formatCurrency
      (((customerInvoices db c).map fun i =>
        if i.status == "paid" then i.amount else 0).sum)) }

/-- `fetchFilteredCustomers`: matching customers ordered by name
ascending, each with its grouped aggregates. -/
def fetchFilteredCustomers (db : DB) (query : String) (error : Option StoreErr) :
    Except String (List CustomersTableRow) :=
  tryCatch
    (match error with
      | some e => Except.error e.message
      | none =>
        Except.ok ((List.insertionSort nameAsc
          (db.customers.filter (customersWhere query))).map (customerSummary db)))
    "Failed to fetch customer table."

/- Concrete stores used by witnesses and counterexamples. -/

def dbEmpty : DB :=
  { customers := [], invoices := [], revenue := [] }

def custC8 : Customer :=
  { id := "c1", name := "Anna", email := "anna@x.com", image_url := "u" }

def invC8 : Invoice :=
  { id := "i1", customer_id := "c1", amount := 500, date := "2024-01-01", status := "paid" }

def dbC8 : DB :=
  { customers := [custC8], invoices := [invC8], revenue := [] }

def cinfo1 : CustomerInfo :=
  { name := "Anna", image_url := "u", email := "a@x.com" }

def rawObj : LatestInvoiceRaw :=
  { amount := 500, id := "i1", date := "2024-01-01", customer_id := "c1",
    customers := CustomersField.obj (some cinfo1) }

def rawArr : LatestInvoiceRaw :=
  { amount := 500, id := "i1", date := "2024-01-01", customer_id := "c1",
    customers := CustomersField.arr [cinfo1] }

/-- A raw latest-invoices row from its five fields. -/
def mkRaw (amount : Int) (id date customer_id : String) (cf : CustomersField) :
    LatestInvoiceRaw :=
  { amount := amount
    id := id
    date := date
    customer_id := customer_id
    customers := cf }

/- Shared helper lemmas. -/

/-- The two WHERE clauses are the same predicate. -/
theorem wherePredicates_eq : invoicesPagesWhere = filteredInvoicesWhere := rfl

/-- Successful `fetchFilteredInvoices` is the page slice of the full
ordered match set. -/
theorem fetchFilteredInvoices_ok (db : DB) (q : String) (p : Nat) :
    fetchFilteredInvoices db q p none =
      Except.ok (((filteredInvoicesAll db q).drop ((p - 1) * 6)).take 6) := rfl

/-- Successful `fetchInvoiceById` is the first element of the mapped
filter result. -/
theorem fetchInvoiceById_ok (db : DB) (id : String) :
    fetchInvoiceById db id none =
      Except.ok (((db.invoices.filter fun i => i.id == id).map fun i =>
        ({ id := i.id
           customer_id := i.customer_id
           amount := CurrencyVal.num ((i.amount : ℚ) / 100)
           status := i.status } : InvoiceForm)).head?) := rfl

/-- Concatenating the 6-element slices at offsets `0, 6, …, (k-1)*6` of a
list yields its first `k*6` elements. -/
theorem range_flatMap_slice {α : Type} (l : List α) (k : Nat) :
    (List.range k).flatMap (fun i => (l.drop (i * 6)).take 6) = l.take (k * 6) := by
  induction k with
  | zero => simp
  | succ n ih =>
      rw [List.range_succ, List.flatMap_append, ih, show (n + 1) * 6 = n * 6 + 6 by ring,
        List.take_add]
      simp

/-- The full ordered match set has as many records as the COUNT query
reports. -/
theorem filteredInvoicesAll_length (db : DB) (q : String) :
    (filteredInvoicesAll db q).length = invoicesPagesCount db q := by
  rw [filteredInvoicesAll, invoicesPagesCount, wherePredicates_eq, List.length_map]
  exact (List.perm_insertionSort dateDesc _).length_eq

/-- Claim C1 as stated is false for `fetchCardData`: a store-reported
failure of its third sub-query does not make the operation fail with
"Failed to fetch card data." — the call completes successfully. -/
theorem c1_counterexample :
    fetchCardData dbEmpty none none (some { message := "raw store error" }) ≠
      Except.error "Failed to fetch card data." := by
  decide

/-- Claim C1 (amended): every accessor except `fetchCardData` fails with
exactly its fixed, operation-specific message on a store-reported failure,
for every such failure, independent of the raw error text — which
therefore never reaches the caller; `fetchCardData` never fails on
store-reported sub-query failures and likewise never surfaces them. -/
theorem c1_fixed_messages (db : DB) (data : List LatestInvoiceRaw) (q id : String)
    (p : Nat) (e e1 e2 e3 : StoreErr) :
    fetchRevenue db (some e) = Except.error "Failed to fetch revenue data." ∧
    fetchLatestInvoices data (some e) = Except.error "Failed to fetch the latest invoices." ∧
    fetchFilteredInvoices db q p (some e) = Except.error "Failed to fetch invoices." ∧
    fetchInvoicesPages db q (some e) = Except.error "Failed to fetch total number of invoices." ∧
    fetchInvoiceById db id (some e) = Except.error "Failed to fetch invoice." ∧
    fetchCustomers db (some e) = Except.error "Failed to fetch all customers." ∧
    fetchFilteredCustomers db q (some e) = Except.error "Failed to fetch customer table." ∧
    (fetchCardData db (some e1) (some e2) (some e3)).isOk = true :=
  ⟨rfl, rfl, rfl, rfl, rfl, rfl, rfl, rfl⟩

/-- Claim C2: when the invoice-status sub-query of `fetchCardData` reports
an error while both count sub-queries succeed, the call still completes,
with both totals the formatted currency for zero and the two counts those
of the successful sub-queries; moreover no combination of sub-query
failures makes the call fail. -/
theorem c2_cardData_partial_failure (db : DB) (e : StoreErr) :
    fetchCardData db none none (some e) =
      Except.ok
        { numberOfCustomers := db.customers.length
          numberOfInvoices := db.invoices.length
          totalPaidInvoices := CurrencyVal.str (formatCurrency 0)
          totalPendingInvoices := CurrencyVal.str (formatCurrency 0) } ∧
    ∀ e1 e2 e3 : Option StoreErr, (fetchCardData db e1 e2 e3).isOk = true := by
  refine ⟨rfl, fun e1 e2 e3 => ?_⟩
  cases e1 <;> cases e2 <;> cases e3 <;> rfl

/-- Claim C3: for every query and page number `p ≥ 1`, a successful
`fetchFilteredInvoices` returns exactly the slice of the full
date-descending ordered match set starting at offset `(p-1)*6`, and at
most 6 records. -/
theorem c3_page_slice (db : DB) (q : String) (p : Nat) (h : 1 ≤ p) :
    fetchFilteredInvoices db q p none =
      Except.ok (((filteredInvoicesAll db q).drop ((p - 1) * 6)).take 6) ∧
    ∀ l, fetchFilteredInvoices db q p none = Except.ok l → l.length ≤ 6 := by
  refine ⟨fetchFilteredInvoices_ok db q p, fun l hl => ?_⟩
  have h0 : Except.ok (((filteredInvoicesAll db q).drop ((p - 1) * 6)).take 6) =
      (Except.ok l : Except String (List InvoicesTableRow)) :=
    (fetchFilteredInvoices_ok db q p).symm.trans hl
  have h1 : l = ((filteredInvoicesAll db q).drop ((p - 1) * 6)).take 6 :=
    (Except.ok.inj h0).symm
  rw [h1]
  exact List.length_take_le 6 ((filteredInvoicesAll db q).drop ((p - 1) * 6))

/-- Witness for C3 at a concrete store and page 1. -/
theorem c3_witness :
    (1 : Nat) ≤ 1 ∧
    (fetchFilteredInvoices dbC8 "" 1 none =
      Except.ok (((filteredInvoicesAll dbC8 "").drop ((1 - 1) * 6)).take 6) ∧
    ∀ l, fetchFilteredInvoices dbC8 "" 1 none = Except.ok l → l.length ≤ 6) :=
  ⟨by decide, c3_page_slice dbC8 "" 1 (by decide)⟩

/-- Claim C6 as stated is false: the same underlying customer data,
delivered once as a single related object and once as a one-element
collection, does not yield identical output records — the object spread
retains the raw `customers` relation, which differs between the shapes. -/
theorem c6_counterexample :
    fetchLatestInvoices [rawObj] none ≠ fetchLatestInvoices [rawArr] none := by
  decide

/-- Claim C6 (amended): the two join shapes normalize to the same
`name`, `image_url` and `email` fields — and agree on `amount`, `id`,
`date` and `customer_id` — though the full records still differ in the
spread-retained raw `customers` field. -/
theorem c6_normalized_fields (amount : Int) (id date customer_id : String)
    (c : CustomerInfo) :
    (flattenLatestInvoice (mkRaw amount id date customer_id
        (CustomersField.obj (some c)))).name =
      (flattenLatestInvoice (mkRaw amount id date customer_id
        (CustomersField.arr [c]))).name ∧
    (flattenLatestInvoice (mkRaw amount id date customer_id
        (CustomersField.obj (some c)))).image_url =
      (flattenLatestInvoice (mkRaw amount id date customer_id
        (CustomersField.arr [c]))).image_url ∧
    (flattenLatestInvoice (mkRaw amount id date customer_id
        (CustomersField.obj (some c)))).email =
      (flattenLatestInvoice (mkRaw amount id date customer_id
        (CustomersField.arr [c]))).email ∧
    (flattenLatestInvoice (mkRaw amount id date customer_id
        (CustomersField.obj (some c)))).amount =
      (flattenLatestInvoice (mkRaw amount id date customer_id
        (CustomersField.arr [c]))).amount ∧
    (flattenLatestInvoice (mkRaw amount id date customer_id
        (CustomersField.obj (some c)))).id =
      (flattenLatestInvoice (mkRaw amount id date customer_id
        (CustomersField.arr [c]))).id ∧
    (flattenLatestInvoice (mkRaw amount id date customer_id
        (CustomersField.obj (some c)))).date =
      (flattenLatestInvoice (mkRaw amount id date customer_id
        (CustomersField.arr [c]))).date ∧
    (flattenLatestInvoice (mkRaw amount id date customer_id
        (CustomersField.obj (some c)))).customer_id =
      (flattenLatestInvoice (mkRaw amount id date customer_id
        (CustomersField.arr [c]))).customer_id :=
  ⟨rfl, rfl, rfl, rfl, rfl, rfl, rfl⟩

/-- Claim C10: an id matching no stored invoice makes `fetchInvoiceById`
complete successfully with an absent value (`invoice[0]` of an empty
mapped result), not with the "Failed to fetch invoice." failure path. -/
theorem c10_not_found (db : DB) (id : String)
    (h : (db.invoices.filter fun i => i.id == id) = []) :
    fetchInvoiceById db id none = Except.ok none := by
  rw [fetchInvoiceById_ok, h]
  rfl

/-- Witness for C10 on a store with no invoices. -/
theorem c10_witness :
    ((dbEmpty.invoices.filter fun i => i.id == "missing") = []) ∧
    fetchInvoiceById dbEmpty "missing" none = Except.ok none :=
  ⟨rfl, c10_not_found dbEmpty "missing" rfl⟩

/-- Claim C7: `fetchInvoiceById` returns the stored row with `amount`
divided by exactly 100 and `id`, `customer_id`, `status` unchanged. -/
theorem c7_invoiceById_division (db : DB) (id : String) (inv : Invoice)
    (h : (db.invoices.filter fun i => i.id == id).head? = some inv) :
    fetchInvoiceById db id none =
      Except.ok (some
        { id := inv.id
          customer_id := inv.customer_id
          amount := CurrencyVal.num ((inv.amount : ℚ) / 100)
          status := inv.status }) := by
  rw [fetchInvoiceById_ok, List.head?_map, h]
  rfl

def invoice125000 : Invoice :=
  { id := "i1"
    customer_id := "c1"
    amount := 125000
    date := "2024-01-01"
    status := "paid" }

def dbC7 : DB :=
  { customers := [], invoices := [invoice125000], revenue := [] }

/-- Witness for C7: stored amount 125000 cents comes back as 1250. -/
theorem c7_witness :
    ((dbC7.invoices.filter fun i => i.id == "i1").head? = some invoice125000) ∧
    fetchInvoiceById dbC7 "i1" none =
      Except.ok (some
        { id := "i1"
          customer_id := "c1"
          amount := CurrencyVal.num 1250
          status := "paid" }) := by
  refine ⟨by decide, ?_⟩
  rw [c7_invoiceById_division dbC7 "i1" invoice125000 (by decide)]
  norm_num [invoice125000]

/-- The rows of page `p` of `fetchFilteredInvoices`, on the success path. -/
def pageRows (db : DB) (query : String) (p : Nat) : List InvoicesTableRow :=
  ((fetchFilteredInvoices db query p none).toOption).getD []

/-- All records returned across pages `1..k`. -/
def allPagesRows (db : DB) (query : String) (k : Nat) : List InvoicesTableRow :=
  (List.range k).flatMap fun i => pageRows db query (i + 1)

/-- Pages `1..k` of the filtered invoices are the first `k*6` records of
the full ordered match set. -/
theorem allPagesRows_eq_take (db : DB) (q : String) (k : Nat) :
    allPagesRows db q k = (filteredInvoicesAll db q).take (k * 6) := by
  rw [allPagesRows]
  have h : (fun i => pageRows db q (i + 1)) =
      fun i => ((filteredInvoicesAll db q).drop (i * 6)).take 6 := rfl
  rw [h, range_flatMap_slice]

def cust13 : Customer :=
  { id := "c1", name := "Ann", email := "ann@x.com", image_url := "u" }

def inv13 (k : Nat) : Invoice :=
  { id := "i"
    customer_id := "c1"
    amount := Int.ofNat k
    date := "2024-01-01"
    status := "pending" }

def db13 : DB :=
  { customers := [cust13], invoices := (List.range 13).map inv13, revenue := [] }

/-- Claim C4: `fetchInvoicesPages` returns the number of matching rows
divided by 6 rounded up (characterized by `n ≤ 6*pc < n + 6`), the records
returned across pages `1..pc` are exactly the `n` matching records, and —
concretely — 13 matching rows yield a page count of 3. -/
theorem c4_page_count :
    (∀ (db : DB) (q : String),
      fetchInvoicesPages db q none =
        Except.ok (mathCeil (invoicesPagesCount db q) 6) ∧
      invoicesPagesCount db q ≤ 6 * mathCeil (invoicesPagesCount db q) 6 ∧
      6 * mathCeil (invoicesPagesCount db q) 6 < invoicesPagesCount db q + 6 ∧
      (allPagesRows db q (mathCeil (invoicesPagesCount db q) 6)).length =
        invoicesPagesCount db q) ∧
    fetchInvoicesPages db13 "" none = Except.ok 3 := by
  refine ⟨fun db q => ⟨rfl, ?_, ?_, ?_⟩, by decide⟩
  · simp only [mathCeil]; omega
  · simp only [mathCeil]; omega
  · rw [allPagesRows_eq_take, List.length_take, filteredInvoicesAll_length]
    have h1 : invoicesPagesCount db q ≤ mathCeil (invoicesPagesCount db q) 6 * 6 := by
      simp only [mathCeil]; omega
    omega

/-- Claim C5: the COUNT query of `fetchInvoicesPages` and the page query of
`fetchFilteredInvoices` use the identical match predicate, and a joined row
is counted exactly when its projected record appears on some page. -/
theorem c5_predicate_consistency :
    invoicesPagesWhere = filteredInvoicesWhere ∧
    ∀ (db : DB) (q : String) (r : InvoicesTableRow),
      (∃ row ∈ (joinedInvoiceRows db).filter (invoicesPagesWhere q),
        toInvoicesTableRow row = r) ↔
      ∃ p, 1 ≤ p ∧ ∃ l, fetchFilteredInvoices db q p none = Except.ok l ∧ r ∈ l := by
  refine ⟨wherePredicates_eq, fun db q r => ?_⟩
  have hmem : (∃ row ∈ (joinedInvoiceRows db).filter (invoicesPagesWhere q),
      toInvoicesTableRow row = r) ↔ r ∈ filteredInvoicesAll db q := by
    rw [filteredInvoicesAll, wherePredicates_eq]
    constructor
    · rintro ⟨row, hrow, hproj⟩
      exact List.mem_map.mpr ⟨row, (List.mem_insertionSort dateDesc).mpr hrow, hproj⟩
    · intro hr
      rcases List.mem_map.mp hr with ⟨row, hrow, hproj⟩
      exact ⟨row, (List.mem_insertionSort dateDesc).mp hrow, hproj⟩
  rw [hmem]
  constructor
  · intro hr
    have hlen : (filteredInvoicesAll db q).length ≤ (filteredInvoicesAll db q).length * 6 := by
      omega
    have htake : (filteredInvoicesAll db q).take ((filteredInvoicesAll db q).length * 6) =
        filteredInvoicesAll db q := List.take_of_length_le hlen
    have hflat : r ∈ (List.range (filteredInvoicesAll db q).length).flatMap
        fun i => ((filteredInvoicesAll db q).drop (i * 6)).take 6 := by
      rw [range_flatMap_slice, htake]; exact hr
    rcases List.mem_flatMap.mp hflat with ⟨i, _, hri⟩
    exact ⟨i + 1, Nat.le_add_left 1 i,
      ((filteredInvoicesAll db q).drop ((i + 1 - 1) * 6)).take 6,
      fetchFilteredInvoices_ok db q (i + 1), hri⟩
  · rintro ⟨p, _, l, hl, hrl⟩
    have h1 : l = ((filteredInvoicesAll db q).drop ((p - 1) * 6)).take 6 :=
      (Except.ok.inj ((fetchFilteredInvoices_ok db q p).symm.trans hl)).symm
    rw [h1] at hrl
    exact List.mem_of_mem_drop (List.mem_of_mem_take hrl)

/-- Claim C8 as stated is false: `fetchFilteredInvoices` surfaces the raw
stored amount as a number, not a formatted currency string. -/
theorem c8_counterexample :
    fetchFilteredInvoices dbC8 "" 1 none =
      Except.ok [{ id := "i1", amount := CurrencyVal.num 500, date := "2024-01-01", status := "paid", name := "Anna", email := "anna@x.com", image_url := "u" }] ∧
    CurrencyVal.isStr (CurrencyVal.num 500) = false :=
  ⟨by decide, rfl⟩

/-- Claim C8 (amended): every monetary total returned by
`fetchLatestInvoices`, `fetchCardData` and `fetchFilteredCustomers` is a
formatted currency string; `fetchFilteredInvoices` and `fetchInvoiceById`
return raw numbers instead. -/
theorem c8_formatted_boundaries (data : List LatestInvoiceRaw) (db : DB) (q : String)
    (e1 e2 e3 : Option StoreErr) :
    (∀ l, fetchLatestInvoices data none = Except.ok l →
      ∀ r ∈ l, CurrencyVal.isStr r.amount = true) ∧
    (∀ cd, fetchCardData db e1 e2 e3 = Except.ok cd →
      CurrencyVal.isStr cd.totalPaidInvoices = true ∧
        CurrencyVal.isStr cd.totalPendingInvoices = true) ∧
    (∀ l, fetchFilteredCustomers db q none = Except.ok l →
      ∀ r ∈ l, CurrencyVal.isStr r.total_pending = true ∧
        CurrencyVal.isStr r.total_paid = true) := by
  refine ⟨?_, ?_, ?_⟩
  · intro l hl r hr
    have h1 : data.map flattenLatestInvoice = l := Except.ok.inj hl
    rw [← h1] at hr
    rcases List.mem_map.mp hr with ⟨x, _, hfx⟩
    rw [← hfx]
    rfl
  · intro cd hcd
    cases e1 <;> cases e2 <;> cases e3 <;>
      exact ⟨(Except.ok.inj hcd) ▸ rfl, (Except.ok.inj hcd) ▸ rfl⟩
  · intro l hl r hr
    have h1 : (List.insertionSort nameAsc (db.customers.filter (customersWhere q))).map
        (customerSummary db) = l := Except.ok.inj hl
    rw [← h1] at hr
    rcases List.mem_map.mp hr with ⟨c, _, hcr⟩
    exact ⟨hcr ▸ rfl, hcr ▸ rfl⟩

/-- Witness for C8 on a concrete latest-invoices row. -/
theorem c8_witness :
    CurrencyVal.isStr (flattenLatestInvoice rawObj).amount = true :=
  (c8_formatted_boundaries [rawObj] dbEmpty "" none none none).1
    ([rawObj].map flattenLatestInvoice) rfl (flattenLatestInvoice rawObj) (by decide)

/-- Claim C9: a successful `fetchFilteredCustomers` is ordered by name
ascending, contains exactly the customers matching the case-insensitive
substring filter on name or email, each with the aggregates of its own
group, and both sums are formatted currency strings. -/
theorem c9_filtered_customers (db : DB) (q : String) :
    ∀ rows, fetchFilteredCustomers db q none = Except.ok rows →
      List.Pairwise (fun a b : CustomersTableRow => a.name.data ≤ b.name.data) rows ∧
      (∀ c ∈ db.customers, customersWhere q c = true → customerSummary db c ∈ rows) ∧
      (∀ r ∈ rows, ∃ c ∈ db.customers, customersWhere q c = true ∧
        r = customerSummary db c) ∧
      (∀ r ∈ rows, CurrencyVal.isStr r.total_pending = true ∧
        CurrencyVal.isStr r.total_paid = true) := by
  intro rows hrows
  haveI hT : IsTotal Customer nameAsc := ⟨fun a b => le_total a.name.data b.name.data⟩
  haveI hR : IsTrans Customer nameAsc := ⟨fun a b c hab hbc => le_trans hab hbc⟩
  have h1 : (List.insertionSort nameAsc (db.customers.filter (customersWhere q))).map
      (customerSummary db) = rows := Except.ok.inj hrows
  subst h1
  refine ⟨?_, ?_, ?_, ?_⟩
  · exact List.Pairwise.map _ (fun a b h => h)
      (List.sorted_insertionSort nameAsc (db.customers.filter (customersWhere q)))
  · intro c hc hm
    exact List.mem_map.mpr ⟨c, (List.mem_insertionSort nameAsc).mpr
      (List.mem_filter.mpr ⟨hc, hm⟩), rfl⟩
  · intro r hr
    rcases List.mem_map.mp hr with ⟨c, hcsort, hcr⟩
    rcases List.mem_filter.mp ((List.mem_insertionSort nameAsc).mp hcsort) with ⟨hcm, hcw⟩
    exact ⟨c, hcm, hcw, hcr.symm⟩
  · intro r hr
    rcases List.mem_map.mp hr with ⟨c, _, hcr⟩
    exact ⟨hcr ▸ rfl, hcr ▸ rfl⟩

def custAnna : Customer :=
  { id := "c1", name := "Anna", email := "anna@x.com", image_url := "u1" }

def custBanner : Customer :=
  { id := "c2", name := "Bob", email := "banner@x.com", image_url := "u2" }

def dbC9 : DB :=
  { customers := [custAnna, custBanner], invoices := [], revenue := [] }

def rowsC9 : List CustomersTableRow :=
  [customerSummary dbC9 custAnna, customerSummary dbC9 custBanner]

/-- Witness for C9: the query "ann" matches the customer named "Anna" and
the one with email "banner@x.com", and both groups appear in the result. -/
theorem c9_witness :
    (customerSummary dbC9 custAnna ∈ rowsC9 ∧ customersWhere "ann" custAnna = true) ∧
    (customerSummary dbC9 custBanner ∈ rowsC9 ∧ customersWhere "ann" custBanner = true) := by
  have h := c9_filtered_customers dbC9 "ann" rowsC9 (by decide)
  exact ⟨⟨h.2.1 custAnna (by decide) (by decide), by decide⟩,
    ⟨h.2.1 custBanner (by decide) (by decide), by decide⟩⟩
